import Mathlib

/-!
Shallow embedding of the HPBscraper repository (Python) used to check its
natural-language specification.  Each definition is translated from the
corresponding Python source file; machine integers are modelled as `Nat`/`Int`
and Python floats as `ℚ`, fallible code returns `Option`, and stateful code is
modelled by explicit state passing.
-/

namespace HPB

/-! ## config.py (retry constants) -/

/-- `config.MAX_RETRIES` (config.py line 62). -/
def MAX_RETRIES : ℕ := 3

/-- `config.RETRY_DELAY` in seconds (config.py line 63). -/
def RETRY_DELAY : ℚ := 1

/-- `config.MAX_BACKOFF` in seconds (config.py line 64). -/
def MAX_BACKOFF : ℚ := 60

/-- `config.RETRY_CODES` (config.py line 65). -/
def RETRY_CODES : List ℕ := [429, 500, 502, 503, 504]

/-! ## http_client.py -/

/-- The exception classes that can reach the `except` clause of
`HTTPClient.get`.  `httpError s` models `requests.exceptions.HTTPError`
raised by `response.raise_for_status()` for a status code `s`; `other`
models any exception outside the `requests` hierarchy. -/
inductive PyExc where
  | timeout
  | connectionError
  | requestException
  | httpError (status : ℕ)
  | other
deriving DecidableEq, Repr

/-- `isinstance(exception, RETRY_EXCEPTIONS)` where `RETRY_EXCEPTIONS =
(Timeout, ConnectionError, RequestException)` (config.py lines 66-70).
In the `requests` library, `Timeout`, `ConnectionError` and `HTTPError`
are all subclasses of `RequestException`, so an `HTTPError` instance
satisfies the `isinstance` check against `RequestException`. -/
def isRetryException : PyExc → Bool
  | .timeout => true
  | .connectionError => true
  | .requestException => true
  | .httpError _ => true
  | .other => false

/-- A `requests.Response`, reduced to the status code, the only field the
retry logic inspects. -/
structure Resp where
  status_code : ℕ
deriving DecidableEq, Repr

/-- `response.ok`: true when the status code is below 400. -/
def Resp.ok (r : Resp) : Bool := r.status_code < 400

/-- `response.raise_for_status()`: raises `HTTPError` for 4xx/5xx status
codes, returns normally otherwise. -/
def raiseForStatus (r : Resp) : Option PyExc :=
  if 400 ≤ r.status_code ∧ r.status_code < 600 then some (.httpError r.status_code)
  else none

/-- Outcome of one `session.get(url, ...)` call: either a response object
arrived, or the call raised an exception. -/
inductive FetchOutcome where
  | resp (status : ℕ)
  | raised (e : PyExc)
deriving DecidableEq, Repr

/-- `HTTPClient.should_retry` (http_client.py lines 33-51). -/
def should_retry (response : Option Resp) (exception : Option PyExc) : Bool :=
  match exception with
  | some e =>
    if isRetryException e then true
    else match response with
         | some r => decide (r.status_code ∈ RETRY_CODES)
         | none => false
  | none =>
    match response with
    | some r => decide (r.status_code ∈ RETRY_CODES)
    | none => false

/-- One iteration of the retry loop in `HTTPClient.get`
(http_client.py lines 68-91): performs the fetch, applies the
`ok`/`raise_for_status` logic, and reports either a final result
(`some (Option Resp)`) or that the loop should retry (`none`). -/
def getAttemptStep (outcome : FetchOutcome) : Option (Option Resp) :=
  let (response, exception) :=
    match outcome with
    | .resp s =>
      let r : Resp := ⟨s⟩
      if r.ok then (some r, none)
      else
        match raiseForStatus r with
        | some e => (some r, some e)
        | none => (some r, none)
    | .raised e => (none, some e)
  match response, exception with
  | some r, none => some (some r)   -- `if response.ok: return response` (or raise_for_status did not raise)
  | _, _ =>
    if should_retry response exception then none
    else some (match response with | some r => some r | none => none)

/-- The retry loop of `HTTPClient.get` starting at a given attempt index
with the remaining number of attempts as fuel; also counts the fetches
performed.  Mirrors `for attempt in range(MAX_RETRIES)` with the final
`return None` (http_client.py lines 68-100). -/
def getLoop (oracle : ℕ → FetchOutcome) : ℕ → ℕ → Option Resp × ℕ
  | 0, _ => (none, 0)
  | fuel + 1, attempt =>
    match getAttemptStep (oracle attempt) with
    | some result => (result, 1)
    | none =>
      let (r, n) := getLoop oracle fuel (attempt + 1)
      (r, n + 1)

/-- `HTTPClient.get` (http_client.py lines 53-100), parameterised by an
oracle giving the outcome of each attempt's network fetch.  Returns the
final value together with the number of fetch attempts performed. -/
def HTTPClient_get (oracle : ℕ → FetchOutcome) : Option Resp × ℕ :=
  getLoop oracle MAX_RETRIES 0

/-- `HTTPClient.calculate_backoff` (http_client.py lines 16-31) split into
the deterministic pre-jitter delay: `min(MAX_BACKOFF, base_delay * 2**attempt)`. -/
def backoffDelay (attempt : ℕ) (base_delay : ℚ := RETRY_DELAY) : ℚ :=
  min MAX_BACKOFF (base_delay * 2 ^ attempt)

/-- `HTTPClient.calculate_backoff`: the returned sleep is the pre-jitter
delay plus the jitter sampled by `random.uniform(0, 0.1 * delay)`
(modelled as an explicit parameter ranging over `[0, 0.1 * delay)`). -/
def calculate_backoff (attempt : ℕ) (jitter : ℚ) (base_delay : ℚ := RETRY_DELAY) : ℚ :=
  backoffDelay attempt base_delay + jitter

/-! ## memory_optimizer.py (LRUCache) -/

/-- The `OrderedDict` backing an `LRUCache`, as an association list in
insertion order: the head is the oldest (least-recently-used) entry and
the last element is the most-recently-used one.  Keys are unique, as in
a Python dict. -/
abbrev Cache (V : Type) := List (String × V)

/-- `key in self.cache`. -/
def cacheMem {V : Type} (c : Cache V) (k : String) : Bool :=
  c.any (fun p => p.1 == k)

/-- The effect of `self.cache.pop(key)` on the dict: the binding of `k`
is removed (keys are unique, so filtering removes exactly that binding). -/
def cachePop {V : Type} (c : Cache V) (k : String) : Cache V :=
  c.filter (fun p => p.1 != k)

/-- `LRUCache.get` (memory_optimizer.py lines 126-140): a miss returns
`None` and leaves the dict unchanged; a hit pops the entry and re-inserts
it at the most-recently-used end. -/
def LRUCache_get {V : Type} (c : Cache V) (k : String) : Option V × Cache V :=
  match List.lookup k c with
  | none => (none, c)
  | some v => (some v, cachePop c k ++ [(k, v)])

/-- `LRUCache.put` (memory_optimizer.py lines 142-153): pops an existing
binding of the key, evicts the oldest entry (`popitem(last=False)`) when
the dict is at capacity and `max_size > 0`, and inserts the new binding
unless `max_size = 0`. -/
def LRUCache_put {V : Type} (max_size : ℕ) (c : Cache V) (k : String) (v : V) : Cache V :=
  let c1 := if cacheMem c k then cachePop c k else c
  let c2 := if max_size ≤ c1.length ∧ 0 < max_size then c1.tail else c1
  if 0 < max_size then c2 ++ [(k, v)] else c2

/-- One operation on an `LRUCache`. -/
inductive CacheOp (V : Type) where
  | get (k : String)
  | put (k : String) (v : V)
  | clear

/-- The dict after one cache operation (`clear` empties the dict,
memory_optimizer.py lines 155-160). -/
def applyCacheOp {V : Type} (m : ℕ) (c : Cache V) : CacheOp V → Cache V
  | .get k => (LRUCache_get c k).2
  | .put k v => LRUCache_put m c k v
  | .clear => []

/-- The dict after a sequence of operations starting from a fresh cache. -/
def runCacheOps {V : Type} (m : ℕ) (ops : List (CacheOp V)) : Cache V :=
  ops.foldl (applyCacheOp m) []

/-! ## app_state_manager.py -/

/-- The contents of the `PROGRESS_INITIAL_STATE` dict
(app_state_manager.py lines 12-18). -/
structure ProcessingState where
  is_processing : Bool
  should_stop : Bool
  status_message : String
  progress : ℚ
  progress_info : List (String × String)
deriving DecidableEq, Repr

/-- The documented initial field values of `PROGRESS_INITIAL_STATE`. -/
def PROGRESS_INITIAL_VALUES : ProcessingState :=
  { is_processing := false, should_stop := false, status_message := "",
    progress := 0, progress_info := [] }

/-- The Streamlit session as the state-management functions manipulate it.
In the source, `PROGRESS_INITIAL_STATE` is a module-level dict object, and
`init_session_state` (line 26), `update_processing_state` (line 87) and
`reset_processing_state` (line 104) all assign that very object — not a
copy — to `st.session_state.processing_state`, so the session entry always
aliases the module-level dict.  The model therefore tracks the current
contents of that single shared dict object, together with whether the
session key has been bound yet. -/
structure SessionState where
  progress_initial_state : ProcessingState
  processing_state_bound : Bool
deriving DecidableEq, Repr

/-- `init_session_state`, restricted to its `processing_state` part
(app_state_manager.py lines 25-26): binds the session key to the shared
`PROGRESS_INITIAL_STATE` object when the key is not yet present. -/
def init_session_state (s : SessionState) : SessionState :=
  if s.processing_state_bound then s else { s with processing_state_bound := true }

/-- `update_processing_state` (app_state_manager.py lines 69-98): ensures
the session key is bound (to the shared dict), then writes, through that
alias, each field for which an argument was passed.  Because the session
entry aliases the module-level `PROGRESS_INITIAL_STATE` object, the writes
change the contents of that shared object. -/
def update_processing_state (s : SessionState)
    (is_processing : Option Bool) (should_stop : Option Bool)
    (status_message : Option String) (progress : Option ℚ)
    (progress_info : Option (List (String × String))) : SessionState :=
  let s := if s.processing_state_bound then s else { s with processing_state_bound := true }
  let d := s.progress_initial_state
  let d := match is_processing with | some b => { d with is_processing := b } | none => d
  let d := match should_stop with | some b => { d with should_stop := b } | none => d
  let d := match status_message with | some m => { d with status_message := m } | none => d
  let d := match progress with | some p => { d with progress := p } | none => d
  let d := match progress_info with | some i => { d with progress_info := i } | none => d
  { s with progress_initial_state := d }

/-- `reset_processing_state` (app_state_manager.py lines 100-104): assigns
the module-level `PROGRESS_INITIAL_STATE` object to the session key again.
No field of the shared dict object is written. -/
def reset_processing_state (s : SessionState) : SessionState :=
  { s with processing_state_bound := true }

/-- `get_processing_state` (app_state_manager.py lines 106-113): the dict
the session entry refers to, i.e. the contents of the shared object. -/
def get_processing_state (s : SessionState) : ProcessingState :=
  s.progress_initial_state

/-! ## scraper.py (scrape_salon_urls page loop) -/

/-- `config.SCRAPING_DELAY` in seconds (config.py line 74). -/
def SCRAPING_DELAY : ℕ := 1

/-- An observable step of `BeautyScraper.scrape_salon_urls`: a page fetch
(`HTTPClient.get`) or a wait (`time.sleep`). -/
inductive ScrapeEvent where
  | fetch (url : String)
  | wait (seconds : ℕ)
deriving DecidableEq, Repr

/-- Whether an event is a wait. -/
def ScrapeEvent.isWait : ScrapeEvent → Bool
  | .wait _ => true
  | .fetch _ => false

/-- The page URL built in the loop body (scraper.py lines 276-278):
page 1 reuses the area URL, later pages append `PN<n>.html?searchGender=ALL`. -/
def pageUrl (area_url : String) (page_num : ℕ) : String :=
  if 1 < page_num then area_url ++ "PN" ++ toString page_num ++ ".html?searchGender=ALL"
  else area_url

/-- The fetch/wait trace of `scrape_salon_urls` on the happy path (no stop
requested, every fetch succeeds and parses): the initial fetch of the area
page used to read the pagination (scraper.py line 221), followed by the
loop over pages `1 .. last_page_num` (lines 270-333), whose body fetches
each page (line 289) and contains no call to `time.sleep`. -/
def scrape_salon_urls_trace (area_url : String) (last_page_num : ℕ) : List ScrapeEvent :=
  ScrapeEvent.fetch area_url ::
    (List.range' 1 last_page_num).map
      (fun page_num => ScrapeEvent.fetch (pageUrl area_url page_num))

/-- The property C4 asserts of a trace: any two successive fetches are
separated by at least one wait event (no two fetch events are adjacent). -/
def waitsBetweenFetches : List ScrapeEvent → Bool
  | ScrapeEvent.fetch _ :: ScrapeEvent.fetch _ :: _ => false
  | _ :: rest => waitsBetweenFetches rest
  | [] => true

/-! ## area_manager.py

Python strings are modelled as `List Char` (`PyStr`) so that every string
operation is structural recursion and evaluates inside the kernel; a Lean
string literal `"…"` enters the model as `"…".toList`. -/

/-- A Python string. -/
abbrev PyStr := List Char

/-- `needle` occurs at the start of `hay`. -/
def leadsWith : PyStr → PyStr → Bool
  | [], _ => true
  | _ :: _, [] => false
  | n :: ns, h :: hs => n == h && leadsWith ns hs

/-- Python's `in` operator on strings: substring containment. -/
def containsSub : PyStr → PyStr → Bool
  | [], needle => needle.isEmpty
  | h :: tl, needle => leadsWith needle (h :: tl) || containsSub tl needle

/-- Python `str.strip()`: removes leading and trailing whitespace. -/
def pyStrip (s : PyStr) : PyStr :=
  ((s.dropWhile Char.isWhitespace).reverse.dropWhile Char.isWhitespace).reverse

/-- Models Python `int(str)` on decimal strings: optional surrounding
whitespace, an optional sign, then one or more digits (underscore digit
grouping and non-decimal bases are not modelled — the validator only
receives plain decimal inputs). -/
def pyInt? (s : PyStr) : Option ℤ :=
  let t := pyStrip s
  let signAndDigits : ℤ × PyStr :=
    match t with
    | '-' :: rest => (-1, rest)
    | '+' :: rest => (1, rest)
    | _ => (1, t)
  let sign := signAndDigits.1
  let ds := signAndDigits.2
  if !ds.isEmpty && ds.all Char.isDigit then
    some (sign * (ds.foldl (fun acc c => acc * 10 + (c.toNat - '0'.toNat)) 0 : ℕ))
  else none

/-- The components of `urllib.parse.urlparse` that the validator reads. -/
structure UrlParts where
  scheme : PyStr
  netloc : PyStr
  path : PyStr
deriving DecidableEq, Repr

/-- Splits a string at the first `://`, returning the part before and the
part after it. -/
def splitSchemeSep : PyStr → Option (PyStr × PyStr)
  | [] => none
  | ':' :: '/' :: '/' :: rest => some ([], rest)
  | c :: rest => (splitSchemeSep rest).map (fun p => (c :: p.1, p.2))

/-- Models `urllib.parse.urlparse` on the shapes this validator
distinguishes: `<scheme>://<netloc>/<path>` yields the three components,
and a string without `://` yields empty scheme and netloc (as
`urlparse('invalid-url')` does).  Strings with a `:` but no `://` differ
from CPython only inside the branch where `all([scheme, netloc])` is
false either way, so the validator's outcome is unchanged. -/
def pyUrlparse (s : PyStr) : UrlParts :=
  match splitSchemeSep s with
  | none => ⟨[], [], s⟩
  | some (scheme, rest) =>
    ⟨scheme, rest.takeWhile (fun c => !(c == '/')), rest.dropWhile (fun c => !(c == '/'))⟩

/-- A row of the area registry (one record of `area.csv`). -/
structure AreaRow where
  prefecture : PyStr
  area : PyStr
  url : PyStr
  estimated_salons : PyStr
deriving DecidableEq, Repr

/-- The dict submitted to `validate_area_data` / `add_area`: each of the
four entries may be missing (`field not in data`); values of other Python
types reach the checks through `str(...)`, so they are modelled as
strings. -/
structure AreaData where
  prefecture : Option PyStr
  area : Option PyStr
  url : Option PyStr
  estimated_salons : Option PyStr
deriving DecidableEq, Repr

/-- Access a field of the dict by its name. -/
def AreaData.fieldValue (d : AreaData) : String → Option PyStr
  | "prefecture" => d.prefecture
  | "area" => d.area
  | "url" => d.url
  | "estimated_salons" => d.estimated_salons
  | _ => none

/-- `required_fields` (area_manager.py line 54). -/
def required_fields : List String := ["prefecture", "area", "url", "estimated_salons"]

/-- The field at which the required-field loop (area_manager.py lines
55-57) first fails: the field is absent or `str(value).strip()` is empty. -/
def firstMissingField (d : AreaData) : Option String :=
  required_fields.find? (fun f =>
    match d.fieldValue f with
    | none => true
    | some v => (pyStrip v).isEmpty)

/-- The uppercase letters iterated by `for c in 'ABCDEFGHIJKLMNOPQRSTUVWXYZ'`. -/
def uppercaseLetters : List Char := "ABCDEFGHIJKLMNOPQRSTUVWXYZ".toList

/-- The Hot Pepper Beauty URL condition (area_manager.py lines 72-77):
the host is `beauty.hotpepper.jp`, the path contains `/svcS<letter>/` for
some uppercase letter, and the path contains `mac` and `salon`. -/
def isHPBAreaUrl (u : UrlParts) : Bool :=
  u.netloc == "beauty.hotpepper.jp".toList &&
  uppercaseLetters.any (fun c => containsSub u.path ("/svcS".toList ++ [c] ++ "/".toList)) &&
  containsSub u.path "mac".toList &&
  containsSub u.path "salon".toList

/-- Error message of a missing required field (line 57). -/
def msgRequired (f : String) : PyStr := f.toList ++ "は必須項目です".toList

/-- Error message texts of `validate_area_data` (area_manager.py lines 59-94). -/
def msgPrefLen : PyStr := "県名は10文字以内で入力してください".toList

/-- See `msgPrefLen`. -/
def msgAreaLen : PyStr := "エリア名は30文字以内で入力してください".toList

/-- See `msgPrefLen`. -/
def msgUrlFormat : PyStr := "URLの形式が正しくありません".toList

/-- See `msgPrefLen`. -/
def msgUrlHPB : PyStr :=
  "Hot Pepper Beautyのエリアページ（https://beauty.hotpepper.jp/svcS*/mac*/salon/...）を入力してください".toList

/-- See `msgPrefLen`. -/
def msgSalonMin : PyStr := "サロン数は1以上の整数である必要があります".toList

/-- See `msgPrefLen`. -/
def msgSalonMax : PyStr := "サロン数が上限（10,000）を超えています".toList

/-- See `msgPrefLen`. -/
def msgSalonInt : PyStr := "サロン数は整数で入力してください".toList

/-- See `msgPrefLen`. -/
def msgDuplicate : PyStr := "指定された県名とエリア名の組み合わせは既に存在します".toList

/-- `AreaManager.is_duplicate` (area_manager.py lines 98-112): the rows
whose prefecture and area both match, tested for being non-empty. -/
def is_duplicate (df : List AreaRow) (prefecture area : PyStr) : Bool :=
  (df.filter (fun r => r.prefecture == prefecture && r.area == area)).length != 0

/-- `AreaManager.validate_area_data` (area_manager.py lines 43-96) with the
registry table (`self.df`) passed explicitly.  The checks run in source
order: required fields, prefecture length, area length, URL shape, URL
domain/path, salon-count conversion, lower bound, upper bound, duplicate. -/
def validate_area_data (df : List AreaRow) (d : AreaData) : Bool × PyStr :=
  match firstMissingField d with
  | some f => (false, msgRequired f)
  | none =>
    let prefecture := d.prefecture.getD []
    let area := d.area.getD []
    let url := d.url.getD []
    let salons := d.estimated_salons.getD []
    if 10 < prefecture.length then (false, msgPrefLen)
    else if 30 < area.length then (false, msgAreaLen)
    else
      let result := pyUrlparse url
      if result.scheme.isEmpty || result.netloc.isEmpty then (false, msgUrlFormat)
      else if !isHPBAreaUrl result then (false, msgUrlHPB)
      else
        match pyInt? salons with
        | none => (false, msgSalonInt)
        | some salon_count =>
          if salon_count ≤ 0 then (false, msgSalonMin)
          else if 10000 < salon_count then (false, msgSalonMax)
          else if is_duplicate df prefecture area then (false, msgDuplicate)
          else (true, [])

/-- The `AreaManager` state `add_area` touches: the in-memory table
(`self.df`) and the rows stored in the CSV file. -/
structure AreaManagerState where
  df : List AreaRow
  csv : List AreaRow
deriving DecidableEq, Repr

/-- The row `pd.concat([self.df, pd.DataFrame([data])])` appends for a
submission (after validation all four fields are present). -/
def rowOfData (d : AreaData) : AreaRow :=
  ⟨d.prefecture.getD [], d.area.getD [], d.url.getD [], d.estimated_salons.getD []⟩

/-- The success message of `add_area` (area_manager.py line 138). -/
def addSuccessMsg (d : AreaData) : PyStr :=
  "エリア '".toList ++ d.prefecture.getD [] ++ " ".toList ++ d.area.getD [] ++
    "' が正常に追加されました".toList

/-- The failure message of `add_area` (area_manager.py line 141). -/
def addFailureMsg (err : PyStr) : PyStr :=
  "エリアの追加に失敗しました: ".toList ++ err

/-- `AreaManager.add_area` (area_manager.py lines 114-141) with
`save_areas` (lines 143-149) modelled as fallible: `saveOk` says whether
`to_csv` succeeds and `saveErr` is the exception text otherwise.  On
success the whole table is written to the CSV; on failure `save_areas`
re-raises, the `except` clause of `add_area` catches it after `self.df`
has already been extended, and the CSV keeps its old contents. -/
def add_area (st : AreaManagerState) (d : AreaData) (saveOk : Bool) (saveErr : PyStr) :
    (Bool × PyStr) × AreaManagerState :=
  let v := validate_area_data st.df d
  if !v.1 then ((false, v.2), st)
  else
    let df2 := st.df ++ [rowOfData d]
    if saveOk then ((true, addSuccessMsg d), ⟨df2, df2⟩)
    else ((false, addFailureMsg saveErr), ⟨df2, st.csv⟩)

/-! Spec-side formulations of the five validation rules of claim C3,
written from the claim's words, to be compared with `validate_area_data`. -/

/-- The field is present and not blank after stripping. -/
def presentNonBlank (v : Option PyStr) : Bool :=
  match v with
  | none => false
  | some s => !(pyStrip s).isEmpty

/-- Rule 1 of C3: all four fields present and non-blank. -/
def specFieldsOk (d : AreaData) : Bool :=
  presentNonBlank d.prefecture && presentNonBlank d.area &&
    presentNonBlank d.url && presentNonBlank d.estimated_salons

/-- The first blank field in the order prefecture, area, url,
estimated_salons (meaningful when rule 1 fails). -/
def specFirstBlankField (d : AreaData) : String :=
  if !presentNonBlank d.prefecture then "prefecture"
  else if !presentNonBlank d.area then "area"
  else if !presentNonBlank d.url then "url"
  else "estimated_salons"

/-- Rule 2a of C3: prefecture at most 10 characters. -/
def specPrefLenOk (d : AreaData) : Bool :=
  (d.prefecture.getD []).length ≤ 10

/-- Rule 2b of C3: area at most 30 characters. -/
def specAreaLenOk (d : AreaData) : Bool :=
  (d.area.getD []).length ≤ 30

/-- Rule 3a of C3: the URL has a scheme and a host. -/
def specUrlHasSchemeHost (d : AreaData) : Bool :=
  let p := pyUrlparse (d.url.getD [])
  !p.scheme.isEmpty && !p.netloc.isEmpty

/-- Rule 3b of C3: the host is the target domain and the path contains a
`/svcS<A-Z>/` segment and the substrings `mac` and `salon`. -/
def specUrlIsHPB (d : AreaData) : Bool :=
  isHPBAreaUrl (pyUrlparse (d.url.getD []))

/-- Rule 4a of C3: `estimated_salons` converts to an integer. -/
def specSalonParses (d : AreaData) : Bool :=
  (pyInt? (d.estimated_salons.getD [])).isSome

/-- Rule 4b of C3: the parsed salon count is at least 1 (vacuous when it
does not parse). -/
def specSalonMinOk (d : AreaData) : Bool :=
  match pyInt? (d.estimated_salons.getD []) with
  | some n => 1 ≤ n
  | none => true

/-- Rule 4c of C3: the parsed salon count is at most 10000 (vacuous when
it does not parse). -/
def specSalonMaxOk (d : AreaData) : Bool :=
  match pyInt? (d.estimated_salons.getD []) with
  | some n => n ≤ 10000
  | none => true

/-- Rule 4 of C3: `estimated_salons` parses as an integer in `[1, 10000]`. -/
def specSalonOk (d : AreaData) : Bool :=
  match pyInt? (d.estimated_salons.getD []) with
  | some n => 1 ≤ n && n ≤ 10000
  | none => false

/-- Rule 5 of C3: the (prefecture, area) pair is not already in the table. -/
def specNoDup (df : List AreaRow) (d : AreaData) : Bool :=
  !is_duplicate df (d.prefecture.getD []) (d.area.getD [])

/-- The checks of C3 in claimed order, each with the message the claim
assigns to it. -/
def ruleChecks (df : List AreaRow) (d : AreaData) : List (Bool × PyStr) :=
  [(specFieldsOk d, msgRequired (specFirstBlankField d)),
   (specPrefLenOk d, msgPrefLen),
   (specAreaLenOk d, msgAreaLen),
   (specUrlHasSchemeHost d, msgUrlFormat),
   (specUrlIsHPB d, msgUrlHPB),
   (specSalonParses d, msgSalonInt),
   (specSalonMinOk d, msgSalonMin),
   (specSalonMaxOk d, msgSalonMax),
   (specNoDup df d, msgDuplicate)]

/-- The message of the first failing check. -/
def firstFailure : List (Bool × PyStr) → Option PyStr
  | [] => none
  | (ok, msg) :: rest => if ok then firstFailure rest else some msg

/-! ## parallel_scraper.py (progress reporting) -/

/-- Python `int(float)`: truncation toward zero. -/
def pyTrunc (q : ℚ) : ℤ := if 0 ≤ q then ⌊q⌋ else -⌊-q⌋

/-- Python `%` on floats with a positive divisor: `a - b * ⌊a / b⌋`. -/
def pyMod (a b : ℚ) : ℚ := a - b * ⌊a / b⌋

/-- The counters of `ParallelScraper` read by `_get_progress_info` and
`_calculate_eta`; times are rationals in seconds and `start_time` is
`none` before processing starts (`self._start_time = None`). -/
structure ScraperCounters where
  total_urls : ℕ
  processed_urls : ℕ
  success_count : ℕ
  error_count : ℕ
  start_time : Option ℚ
deriving DecidableEq, Repr

/-- The shape of a `_calculate_eta` result: which of the four strings the
function builds — `計算中...`, `約<s>秒`, `約<m>分`, `約<h>時間<m>分`
(parallel_scraper.py lines 117, 125, 127, 131). -/
inductive EtaForm where
  | computing
  | seconds (s : ℤ)
  | minutes (m : ℤ)
  | hoursMinutes (h m : ℤ)
deriving DecidableEq, Repr

/-- The `eta_seconds` value computed by `_calculate_eta`
(parallel_scraper.py lines 119-122): `elapsed = max(0.1, now - t0)`,
`avg_time_per_url = elapsed / processed`, `remaining = max(0, total -
processed)`, `eta_seconds = avg_time_per_url * remaining`. -/
def etaSeconds (st : ScraperCounters) (now t0 : ℚ) : ℚ :=
  max (1/10) (now - t0) / (st.processed_urls : ℚ) *
    ((max 0 ((st.total_urls : ℤ) - (st.processed_urls : ℤ)) : ℤ) : ℚ)

/-- `ParallelScraper._calculate_eta` (parallel_scraper.py lines 113-134)
with the current time passed explicitly.  `not self._start_time` is also
true for a start time of exactly `0.0` (a falsy float), hence the `t0 = 0`
disjunct. -/
def calculate_eta (st : ScraperCounters) (now : ℚ) : EtaForm :=
  match st.start_time with
  | none => .computing
  | some t0 =>
    if t0 = 0 ∨ st.processed_urls = 0 then .computing
    else
      let eta_seconds := etaSeconds st now t0
      if eta_seconds < 60 then .seconds (pyTrunc (max 0 eta_seconds))
      else if eta_seconds < 3600 then .minutes (pyTrunc (eta_seconds / 60))
      else .hoursMinutes (pyTrunc (eta_seconds / 3600))
        (pyTrunc (pyMod eta_seconds 3600 / 60))

/-- The snapshot dict `_get_progress_info` builds (parallel_scraper.py
lines 159-171). -/
structure ProgressInfo where
  total : ℕ
  processed : ℕ
  success : ℕ
  error : ℕ
  progress : ℚ
  avg_time : ℚ
  eta : EtaForm
  elapsed : ℚ
  speed : ℚ
  remaining : ℤ
deriving DecidableEq, Repr

/-- `ParallelScraper._get_progress_info` (parallel_scraper.py lines
136-174) with the current time passed explicitly; `none` models the empty
dict returned when `total` is 0 (`gc` bookkeeping is out of scope, so the
`memory_optimizations` entry is omitted). -/
def get_progress_info (st : ScraperCounters) (now : ℚ) : Option ProgressInfo :=
  if st.total_urls = 0 then none
  else
    let elapsed := now - (st.start_time.getD now)
    some
      { total := st.total_urls
        processed := st.processed_urls
        success := st.success_count
        error := st.error_count
        progress := min 100 ((st.processed_urls : ℚ) / ((max 1 st.total_urls : ℕ) : ℚ) * 100)
        avg_time := elapsed / ((max 1 st.processed_urls : ℕ) : ℚ)
        eta := calculate_eta st now
        elapsed := elapsed
        speed := if 0 < elapsed then (st.processed_urls : ℚ) / elapsed else 0
        remaining := max 0 ((st.total_urls : ℤ) - (st.processed_urls : ℤ)) }

/-- A concrete counter state matching the spec's worked example:
`total=10, processed=4`, started at time 5 and observed at time 25
(elapsed 20 seconds). -/
def sampleCounters : ScraperCounters := ⟨10, 4, 3, 1, some 5⟩

/-! ## excel_exporter.py -/

/-- A value of a salon-data dict: the scraped fields are strings except
`関連リンク数`, an int (scraper.py lines 167-175). -/
inductive CellVal where
  | s (v : PyStr)
  | i (n : ℤ)
deriving DecidableEq, Repr

/-- A salon record as a Python dict. -/
abbrev SalonDict := List (String × CellVal)

/-- Python `dict.get(key, default)`. -/
def dictGet (d : SalonDict) (k : String) (dflt : CellVal) : CellVal :=
  match List.lookup k d with
  | some v => v
  | none => dflt

/-- The header row of both export operations
(excel_exporter.py lines 30 and 57). -/
def excelHeader : List String :=
  ["サロン名", "電話番号", "住所", "スタッフ数", "関連リンク", "関連リンク数", "サロンURL"]

/-- `sheet.append(row)`: the sheet is its list of rows, top to bottom. -/
def sheetAppend (sheet : List (List CellVal)) (row : List CellVal) : List (List CellVal) :=
  sheet ++ [row]

/-- The rows `ExcelExporter.export_salon_data` writes to the workbook
(excel_exporter.py lines 26-37): the header, then for each record in
order the row `[data.get(h, '') for h in header]`. -/
def export_salon_data_rows (salon_data_list : List SalonDict) : List (List CellVal) :=
  let sheet : List (List CellVal) := []
  let sheet := sheetAppend sheet (excelHeader.map (fun h => CellVal.s h.toList))
  salon_data_list.foldl
    (fun sh data => sheetAppend sh (excelHeader.map (fun h => dictGet data h (.s [])))) sheet

/-- The rows `ExcelExporter.get_excel_bytes` writes (excel_exporter.py
lines 53-62); the construction is textually duplicated from
`export_salon_data` in the source. -/
def get_excel_bytes_rows (salon_data_list : List SalonDict) : List (List CellVal) :=
  let sheet : List (List CellVal) := []
  let sheet := sheetAppend sheet (excelHeader.map (fun h => CellVal.s h.toList))
  salon_data_list.foldl
    (fun sh data => sheetAppend sh (excelHeader.map (fun h => dictGet data h (.s [])))) sheet

/-- A concrete registry row, used to instantiate the area-manager theorems. -/
def sampleRow : AreaRow :=
  ⟨"東京都".toList, "渋谷".toList,
   "https://beauty.hotpepper.jp/svcSA/macAA/salon/".toList, "100".toList⟩

/-- A concrete valid new-area submission (passes every validation rule
against a registry containing only `sampleRow`). -/
def sampleNewArea : AreaData :=
  ⟨some "大阪府".toList, some "心斎橋".toList,
   some "https://beauty.hotpepper.jp/svcSB/macBB/salon/".toList, some "50".toList⟩

/-- A concrete submission that duplicates `sampleRow`'s (prefecture, area). -/
def sampleDupArea : AreaData :=
  ⟨some "東京都".toList, some "渋谷".toList,
   some "https://beauty.hotpepper.jp/svcSA/macAA/salon/".toList, some "100".toList⟩

theorem foldl_sheetAppend (f : SalonDict → List CellVal) (l : List SalonDict)
    (init : List (List CellVal)) :
    l.foldl (fun sh d => sheetAppend sh (f d)) init = init ++ l.map f := by
  induction l generalizing init with
  | nil => simp
  | cons d rest ih =>
    rw [List.foldl_cons, ih]
    simp [sheetAppend]

theorem findPred_eq (d : AreaData) (f : String) :
    (match d.fieldValue f with
     | none => true
     | some v => (pyStrip v).isEmpty) = !presentNonBlank (d.fieldValue f) := by
  cases d.fieldValue f <;> simp [presentNonBlank]

theorem firstMissingField_eq (d : AreaData) :
    firstMissingField d =
      if !presentNonBlank d.prefecture then some "prefecture"
      else if !presentNonBlank d.area then some "area"
      else if !presentNonBlank d.url then some "url"
      else if !presentNonBlank d.estimated_salons then some "estimated_salons"
      else none := by
  simp only [firstMissingField, required_fields, List.find?_cons, List.find?_nil,
    findPred_eq d]
  simp only [AreaData.fieldValue]
  cases presentNonBlank d.prefecture <;> cases presentNonBlank d.area <;>
    cases presentNonBlank d.url <;> cases presentNonBlank d.estimated_salons <;> simp

theorem validate_eq_firstFailure (df : List AreaRow) (d : AreaData) :
    validate_area_data df d =
      (match firstFailure (ruleChecks df d) with
       | none => (true, ([] : PyStr))
       | some m => (false, m)) := by
  rw [validate_area_data, firstMissingField_eq d, ruleChecks]
  by_cases hp : presentNonBlank d.prefecture
  case neg =>
    rw [Bool.not_eq_true] at hp
    simp [hp, firstFailure, specFieldsOk, specFirstBlankField]
  by_cases ha : presentNonBlank d.area
  case neg =>
    rw [Bool.not_eq_true] at ha
    simp [hp, ha, firstFailure, specFieldsOk, specFirstBlankField]
  by_cases hu : presentNonBlank d.url
  case neg =>
    rw [Bool.not_eq_true] at hu
    simp [hp, ha, hu, firstFailure, specFieldsOk, specFirstBlankField]
  by_cases he : presentNonBlank d.estimated_salons
  case neg =>
    rw [Bool.not_eq_true] at he
    simp [hp, ha, hu, he, firstFailure, specFieldsOk, specFirstBlankField]
  simp only [hp, ha, hu, he, Bool.not_true, Bool.false_eq_true, if_false]
  by_cases hL1 : (d.prefecture.getD []).length ≤ 10
  case neg =>
    have hL1' : 10 < (d.prefecture.getD []).length := by omega
    simp [hp, ha, hu, he, hL1, hL1', firstFailure, specFieldsOk, specPrefLenOk]
  have hL1' : ¬ 10 < (d.prefecture.getD []).length := by omega
  by_cases hL2 : (d.area.getD []).length ≤ 30
  case neg =>
    have hL2' : 30 < (d.area.getD []).length := by omega
    simp [hp, ha, hu, he, hL1, hL1', hL2, hL2', firstFailure, specFieldsOk,
      specPrefLenOk, specAreaLenOk]
  have hL2' : ¬ 30 < (d.area.getD []).length := by omega
  by_cases hUf : (pyUrlparse (d.url.getD [])).scheme.isEmpty ||
      (pyUrlparse (d.url.getD [])).netloc.isEmpty
  case pos =>
    simp [hp, ha, hu, he, hL1, hL1', hL2, hL2', hUf, firstFailure, specFieldsOk,
      specPrefLenOk, specAreaLenOk, specUrlHasSchemeHost]
    rcases Bool.or_eq_true _ _ |>.mp hUf with h | h <;>
      rw [List.isEmpty_iff] at h <;> simp [h]
  have hUf' : ((pyUrlparse (d.url.getD [])).scheme.isEmpty ||
      (pyUrlparse (d.url.getD [])).netloc.isEmpty) = false := by
    exact Bool.not_eq_true _ |>.mp hUf
  rw [Bool.or_eq_false_iff] at hUf'
  by_cases hH : isHPBAreaUrl (pyUrlparse (d.url.getD []))
  case neg =>
    rw [Bool.not_eq_true] at hH
    simp [hp, ha, hu, he, hL1, hL1', hL2, hL2', hUf'.1, hUf'.2, hH, firstFailure,
      specFieldsOk, specPrefLenOk, specAreaLenOk, specUrlHasSchemeHost, specUrlIsHPB]
  cases hParse : pyInt? (d.estimated_salons.getD []) with
  | none =>
    simp [hp, ha, hu, he, hL1, hL1', hL2, hL2', hUf'.1, hUf'.2, hH, hParse,
      firstFailure, specFieldsOk, specPrefLenOk, specAreaLenOk, specUrlHasSchemeHost,
      specUrlIsHPB, specSalonParses]
  | some n =>
    by_cases hMin : n ≤ 0
    case pos =>
      have hMin' : ¬ (1 ≤ n) := by omega
      simp [hp, ha, hu, he, hL1, hL1', hL2, hL2', hUf'.1, hUf'.2, hH, hParse, hMin,
        hMin', firstFailure, specFieldsOk, specPrefLenOk, specAreaLenOk,
        specUrlHasSchemeHost, specUrlIsHPB, specSalonParses, specSalonMinOk]
    have hMin' : 1 ≤ n := by omega
    by_cases hMax : 10000 < n
    case pos =>
      have hMax' : ¬ (n ≤ 10000) := by omega
      simp [hp, ha, hu, he, hL1, hL1', hL2, hL2', hUf'.1, hUf'.2, hH, hParse, hMin,
        hMin', hMax, hMax', firstFailure, specFieldsOk, specPrefLenOk, specAreaLenOk,
        specUrlHasSchemeHost, specUrlIsHPB, specSalonParses, specSalonMinOk,
        specSalonMaxOk]
    have hMax' : n ≤ 10000 := by omega
    by_cases hD : is_duplicate df (d.prefecture.getD []) (d.area.getD [])
    case pos =>
      simp [hp, ha, hu, he, hL1, hL1', hL2, hL2', hUf'.1, hUf'.2, hH, hParse, hMin,
        hMin', hMax, hMax', hD, firstFailure, specFieldsOk, specPrefLenOk,
        specAreaLenOk, specUrlHasSchemeHost, specUrlIsHPB, specSalonParses,
        specSalonMinOk, specSalonMaxOk, specNoDup]
    rw [Bool.not_eq_true] at hD
    simp [hp, ha, hu, he, hL1, hL1', hL2, hL2', hUf'.1, hUf'.2, hH, hParse, hMin,
      hMin', hMax, hMax', hD, firstFailure, specFieldsOk, specPrefLenOk,
      specAreaLenOk, specUrlHasSchemeHost, specUrlIsHPB, specSalonParses,
      specSalonMinOk, specSalonMaxOk, specNoDup]

theorem length_cachePop_le {V : Type} (c : Cache V) (k : String) :
    (cachePop c k).length ≤ c.length :=
  List.length_filter_le _ c

theorem length_cachePop_lt {V : Type} (c : Cache V) (k : String) (v : V)
    (h : List.lookup k c = some v) : (cachePop c k).length < c.length := by
  induction c with
  | nil => simp [List.lookup] at h
  | cons p t ih =>
    obtain ⟨k0, v0⟩ := p
    by_cases heq : k = k0
    · subst heq
      simp only [cachePop, List.filter_cons]
      rw [if_neg (by simp)]
      exact Nat.lt_succ_of_le (List.length_filter_le _ t)
    · have h' : List.lookup k t = some v := by
        simpa [List.lookup_cons, beq_false_of_ne heq] using h
      simp only [cachePop, List.filter_cons]
      rw [if_pos (bne_iff_ne.mpr (Ne.symm heq))]
      exact Nat.succ_lt_succ (ih h')

theorem cacheMem_eq_false_of_lookup_none {V : Type} (c : Cache V) (k : String)
    (h : List.lookup k c = none) : cacheMem c k = false := by
  induction c with
  | nil => rfl
  | cons p t ih =>
    obtain ⟨k0, v0⟩ := p
    by_cases heq : k = k0
    · subst heq
      simp [List.lookup_cons] at h
    · have h' : List.lookup k t = none := by
        simpa [List.lookup_cons, beq_false_of_ne heq] using h
      simp only [cacheMem, List.any_cons] at ih ⊢
      simp [beq_false_of_ne (Ne.symm heq), ih h']

theorem length_applyCacheOp_le {V : Type} (m : ℕ) (c : Cache V) (op : CacheOp V)
    (h : c.length ≤ m) : (applyCacheOp m c op).length ≤ m := by
  cases op with
  | get k =>
    simp only [applyCacheOp, LRUCache_get]
    cases hl : List.lookup k c with
    | none => simpa using h
    | some v =>
      have := length_cachePop_lt c k v hl
      simp only [List.length_append, List.length_singleton]
      omega
  | put k v =>
    simp only [applyCacheOp, LRUCache_put]
    have h1 : (if cacheMem c k then cachePop c k else c).length ≤ c.length := by
      split
      · exact length_cachePop_le c k
      · exact le_rfl
    set c1 := if cacheMem c k then cachePop c k else c with hc1
    by_cases hm : 0 < m
    · rw [if_pos hm]
      by_cases hfull : m ≤ c1.length ∧ 0 < m
      · have hlen : c1.length = m := le_antisymm (le_trans h1 h) hfull.1
        rw [if_pos hfull]
        simp only [List.length_append, List.length_singleton, List.length_tail]
        omega
      · rw [if_neg hfull]
        have : c1.length < m := by
          rcases Nat.lt_or_ge c1.length m with h2 | h2
          · exact h2
          · exact absurd ⟨h2, hm⟩ hfull
        simp only [List.length_append, List.length_singleton]
        omega
    · have hm0 : m = 0 := Nat.eq_zero_of_not_pos hm
      subst hm0
      rw [if_neg (by omega), if_neg (by simp)]
      omega
  | clear => simp [applyCacheOp]

theorem length_foldl_cacheOps_le {V : Type} (m : ℕ) (ops : List (CacheOp V))
    (c : Cache V) (h : c.length ≤ m) :
    (ops.foldl (applyCacheOp m) c).length ≤ m := by
  induction ops generalizing c with
  | nil => simpa using h
  | cons op rest ih =>
    simp only [List.foldl_cons]
    exact ih _ (length_applyCacheOp_le m c op h)

end HPB

/-! ## Theorems for C1, C5 and C8 -/

/-- C1: the claim says a response with a non-retryable error status such as
404 is not retried and is returned as-is.  The code disagrees: for a URL
whose server answers 404 on every attempt, `raise_for_status()` raises
`HTTPError`, which is a subclass of `RequestException` and hence matches
`RETRY_EXCEPTIONS`, so `should_retry` returns true; the client performs all
3 attempts and finally returns `None`, not the response object. -/
theorem C1_get_retries_404_and_returns_none :
    HPB.HTTPClient_get (fun _ => .resp 404) = (none, 3) ∧
    HPB.should_retry (some ⟨404⟩) (some (.httpError 404)) = true := by
  constructor <;> rfl

/-- C8: for every 0-indexed attempt `n` and every jitter value in
`[0, 0.1 * delay)` produced by `random.uniform(0, 0.1 * delay)`, the total
sleep `calculate_backoff` equals `min(60, 1 * 2^n)` plus the jitter, is at
least the un-jittered delay and less than 1.1 times it; the pre-jitter
delays for attempts 0, 1, 2 are 1s, 2s and 4s. -/
theorem C8_backoff_formula (n : ℕ) (j : ℚ)
    (hj : 0 ≤ j ∧ j < (1/10) * HPB.backoffDelay n) :
    HPB.calculate_backoff n j = min 60 (1 * 2 ^ n) + j ∧
    HPB.backoffDelay n ≤ HPB.calculate_backoff n j ∧
    HPB.calculate_backoff n j < (11/10) * HPB.backoffDelay n ∧
    HPB.backoffDelay 0 = 1 ∧ HPB.backoffDelay 1 = 2 ∧ HPB.backoffDelay 2 = 4 := by
  obtain ⟨hj0, hj1⟩ := hj
  refine ⟨rfl, by simp [HPB.calculate_backoff, hj0], ?_,
    by norm_num [HPB.backoffDelay, HPB.MAX_BACKOFF, HPB.RETRY_DELAY],
    by norm_num [HPB.backoffDelay, HPB.MAX_BACKOFF, HPB.RETRY_DELAY],
    by norm_num [HPB.backoffDelay, HPB.MAX_BACKOFF, HPB.RETRY_DELAY]⟩
  have : HPB.calculate_backoff n j < HPB.backoffDelay n + (1/10) * HPB.backoffDelay n := by
    simpa [HPB.calculate_backoff] using hj1
  linarith

/-- Witness for C8 at attempt 0 with jitter 1/20. -/
theorem C8_backoff_formula_witness :
    (0 ≤ (1/20 : ℚ) ∧ (1/20 : ℚ) < (1/10) * HPB.backoffDelay 0) ∧
    (HPB.calculate_backoff 0 (1/20) = min 60 (1 * 2 ^ 0) + 1/20 ∧
     HPB.backoffDelay 0 ≤ HPB.calculate_backoff 0 (1/20) ∧
     HPB.calculate_backoff 0 (1/20) < (11/10) * HPB.backoffDelay 0 ∧
     HPB.backoffDelay 0 = 1 ∧ HPB.backoffDelay 1 = 2 ∧ HPB.backoffDelay 2 = 4) := by
  have h : 0 ≤ (1/20 : ℚ) ∧ (1/20 : ℚ) < (1/10) * HPB.backoffDelay 0 := by
    norm_num [HPB.backoffDelay, HPB.MAX_BACKOFF, HPB.RETRY_DELAY]
  exact ⟨h, C8_backoff_formula 0 (1/20) h⟩

/-- C5: for every max size `m > 0` and every sequence of get/put/clear
operations from a fresh cache, the cache size never exceeds `m`; a put of
an absent key while the cache holds exactly `m` entries evicts exactly the
least-recently-used (oldest) entry; a get of a present key returns its
value and promotes the entry to the most-recently-used end; and with
`m = 0` a put stores nothing, so the cache stays empty under every
operation sequence. -/
theorem C5_lru_invariants (m : ℕ) (hm : 0 < m) :
    (∀ (V : Type) (ops : List (HPB.CacheOp V)),
        (HPB.runCacheOps m ops).length ≤ m) ∧
    (∀ (V : Type) (c : HPB.Cache V) (k : String) (v : V),
        List.lookup k c = none → c.length = m →
        HPB.LRUCache_put m c k v = c.tail ++ [(k, v)]) ∧
    (∀ (V : Type) (c : HPB.Cache V) (k : String) (v : V),
        List.lookup k c = some v →
        HPB.LRUCache_get c k = (some v, HPB.cachePop c k ++ [(k, v)])) ∧
    (∀ (V : Type) (ops : List (HPB.CacheOp V)),
        HPB.runCacheOps 0 ops = []) := by
  refine ⟨fun V ops => HPB.length_foldl_cacheOps_le m ops [] (by simp),
    fun V c k v habs hfull => ?_,
    fun V c k v hv => by simp [HPB.LRUCache_get, hv],
    fun V ops => List.eq_nil_of_length_eq_zero
      (Nat.le_zero.mp (HPB.length_foldl_cacheOps_le 0 ops [] (by simp)))⟩
  have hmem := HPB.cacheMem_eq_false_of_lookup_none c k habs
  simp only [HPB.LRUCache_put, hmem, Bool.false_eq_true, if_false]
  rw [if_pos (show m ≤ c.length ∧ 0 < m from ⟨hfull.ge, hm⟩), if_pos hm]

/-- Witness for C5 at `m = 2` with two-element caches. -/
theorem C5_lru_invariants_witness :
    0 < 2 ∧
    ((HPB.runCacheOps 2 [HPB.CacheOp.put "a" (1 : ℕ), HPB.CacheOp.put "b" 2,
        HPB.CacheOp.put "c" 3]).length ≤ 2 ∧
     HPB.LRUCache_put 2 [("a", (1 : ℕ)), ("b", 2)] "c" 3 =
       [("a", (1 : ℕ)), ("b", 2)].tail ++ [("c", 3)] ∧
     HPB.LRUCache_get [("a", (1 : ℕ)), ("b", 2)] "a" =
       (some 1, HPB.cachePop [("a", (1 : ℕ)), ("b", 2)] "a" ++ [("a", 1)]) ∧
     HPB.runCacheOps 0 [HPB.CacheOp.put "a" (1 : ℕ)] = []) := by
  have h := C5_lru_invariants 2 (by decide)
  exact ⟨by decide, h.1 ℕ _, h.2.1 ℕ _ "c" 3 (by decide) (by decide),
    h.2.2.1 ℕ _ "a" 1 (by decide), h.2.2.2 ℕ _⟩

/-- C2: the claim says that after any `update_processing_state` calls, a
`reset_processing_state` leaves the processing state at its documented
initial values.  The code disagrees: `update_processing_state` mutates the
module-level `PROGRESS_INITIAL_STATE` dict through the alias stored in the
session, and `reset_processing_state` re-assigns that same (already
mutated) object.  After `update_processing_state(is_processing=True)`
followed by `reset_processing_state()`, `is_processing` is still `True`,
not the documented initial `False`. -/
theorem C2_reset_does_not_restore_initial_values :
    (HPB.get_processing_state
      (HPB.reset_processing_state
        (HPB.update_processing_state
          (HPB.init_session_state ⟨HPB.PROGRESS_INITIAL_VALUES, false⟩)
          (some true) none none none none))).is_processing = true ∧
    HPB.PROGRESS_INITIAL_VALUES.is_processing = false := by
  constructor <;> rfl

/-- C4 counterexample: for an area whose first page reports 2 total pages,
the fetch/wait trace of `scrape_salon_urls` has its page fetches adjacent —
no wait separates them, contrary to the claim of a 1-second wait between
each pair of consecutive page fetches. -/
theorem C4_counterexample_no_wait_at_two_pages :
    2 ≥ 2 ∧ HPB.waitsBetweenFetches (HPB.scrape_salon_urls_trace "u" 2) = false := by
  constructor
  · decide
  · rfl

/-- C4 (amended): `scrape_salon_urls` performs no wait at all — its page
loop contains no `time.sleep` call — so the trace for any area URL and any
total page count consists of the initial fetch followed by the page
fetches, with zero wait events. -/
theorem C4_no_wait_between_page_fetches (area_url : String) (n : ℕ) :
    (HPB.scrape_salon_urls_trace area_url n).countP (fun e => e.isWait) = 0 ∧
    HPB.scrape_salon_urls_trace area_url n =
      HPB.ScrapeEvent.fetch area_url ::
        (List.range' 1 n).map (fun p => HPB.ScrapeEvent.fetch (HPB.pageUrl area_url p)) := by
  refine ⟨?_, rfl⟩
  rw [List.countP_eq_zero]
  intro e he
  rw [HPB.scrape_salon_urls_trace, List.mem_cons] at he
  rcases he with h | h
  · subst h; simp [HPB.ScrapeEvent.isWait]
  · obtain ⟨p, _, rfl⟩ := List.mem_map.mp h
    simp [HPB.ScrapeEvent.isWait]

/-- C3: `validate_area_data` returns `(true, "")` exactly when all five
rules hold — four fields present and non-blank; prefecture at most 10 and
area at most 30 characters; the URL has a scheme and host, the host is
`beauty.hotpepper.jp` and the path contains a `/svcS<A-Z>/` segment and
the substrings `mac` and `salon`; `estimated_salons` parses as an integer
in `[1, 10000]`; the (prefecture, area) pair is not already in the
table — and on failure it returns the message of the first failing check,
in exactly that order. -/
theorem C3_validation_rules_and_order (df : List HPB.AreaRow) (d : HPB.AreaData) :
    (HPB.validate_area_data df d = (true, []) ↔
      (HPB.specFieldsOk d && (HPB.specPrefLenOk d && HPB.specAreaLenOk d) &&
       (HPB.specUrlHasSchemeHost d && HPB.specUrlIsHPB d) &&
       HPB.specSalonOk d && HPB.specNoDup df d) = true) ∧
    HPB.validate_area_data df d =
      (match HPB.firstFailure (HPB.ruleChecks df d) with
       | none => (true, [])
       | some m => (false, m)) := by
  refine ⟨?_, HPB.validate_eq_firstFailure df d⟩
  rw [HPB.validate_eq_firstFailure df d, HPB.ruleChecks]
  by_cases h1 : HPB.specFieldsOk d
  case neg =>
    rw [Bool.not_eq_true] at h1
    simp [h1, HPB.firstFailure]
  by_cases h2 : HPB.specPrefLenOk d
  case neg =>
    rw [Bool.not_eq_true] at h2
    simp [h1, h2, HPB.firstFailure]
  by_cases h3 : HPB.specAreaLenOk d
  case neg =>
    rw [Bool.not_eq_true] at h3
    simp [h1, h2, h3, HPB.firstFailure]
  by_cases h4 : HPB.specUrlHasSchemeHost d
  case neg =>
    rw [Bool.not_eq_true] at h4
    simp [h1, h2, h3, h4, HPB.firstFailure]
  by_cases h5 : HPB.specUrlIsHPB d
  case neg =>
    rw [Bool.not_eq_true] at h5
    simp [h1, h2, h3, h4, h5, HPB.firstFailure]
  cases hParse : HPB.pyInt? (d.estimated_salons.getD []) with
  | none =>
    simp [h1, h2, h3, h4, h5, HPB.firstFailure, HPB.specSalonParses,
      HPB.specSalonOk, hParse]
  | some n =>
    by_cases hMin : 1 ≤ n
    case neg =>
      simp [h1, h2, h3, h4, h5, HPB.firstFailure, HPB.specSalonParses,
        HPB.specSalonMinOk, HPB.specSalonOk, hParse, hMin]
    by_cases hMax : n ≤ 10000
    case neg =>
      simp [h1, h2, h3, h4, h5, HPB.firstFailure, HPB.specSalonParses,
        HPB.specSalonMinOk, HPB.specSalonMaxOk, HPB.specSalonOk, hParse, hMin, hMax]
    by_cases h7 : HPB.specNoDup df d
    case neg =>
      rw [Bool.not_eq_true] at h7
      simp [h1, h2, h3, h4, h5, HPB.firstFailure, HPB.specSalonParses,
        HPB.specSalonMinOk, HPB.specSalonMaxOk, HPB.specSalonOk, hParse, hMin, hMax, h7]
    simp [h1, h2, h3, h4, h5, HPB.firstFailure, HPB.specSalonParses,
      HPB.specSalonMinOk, HPB.specSalonMaxOk, HPB.specSalonOk, hParse, hMin, hMax, h7]

/-- C6: `add_area` validates first; when validation fails it returns
`(false, the validation message)` and leaves both the in-memory table and
the CSV rows unchanged; when validation succeeds and persistence succeeds
it returns `(true, a success message naming the prefecture and area)`, and
the table (also persisted to the CSV) is the old table plus exactly the
submitted record at the end. -/
theorem C6_add_area_behavior (st : HPB.AreaManagerState) (d : HPB.AreaData)
    (saveOk : Bool) (saveErr : HPB.PyStr) :
    ((HPB.validate_area_data st.df d).1 = false →
      HPB.add_area st d saveOk saveErr =
        ((false, (HPB.validate_area_data st.df d).2), st)) ∧
    ((HPB.validate_area_data st.df d).1 = true → saveOk = true →
      HPB.add_area st d saveOk saveErr =
        ((true, "エリア '".toList ++ d.prefecture.getD [] ++ " ".toList ++
            d.area.getD [] ++ "' が正常に追加されました".toList),
         ⟨st.df ++ [HPB.rowOfData d], st.df ++ [HPB.rowOfData d]⟩) ∧
      (HPB.add_area st d saveOk saveErr).2.df.length = st.df.length + 1) := by
  constructor
  · intro hv
    simp [HPB.add_area, hv]
  · intro hv hs
    subst hs
    refine ⟨by simp [HPB.add_area, hv, HPB.addSuccessMsg], ?_⟩
    simp [HPB.add_area, hv]

/-- Witness for C6: against a registry holding `sampleRow`, a duplicate
submission fails validation and changes nothing, while a fresh valid
submission succeeds and appends exactly one row. -/
theorem C6_add_area_behavior_witness :
    ((HPB.validate_area_data [HPB.sampleRow] HPB.sampleDupArea).1 = false ∧
     HPB.add_area ⟨[HPB.sampleRow], [HPB.sampleRow]⟩ HPB.sampleDupArea true [] =
       ((false, (HPB.validate_area_data [HPB.sampleRow] HPB.sampleDupArea).2),
        ⟨[HPB.sampleRow], [HPB.sampleRow]⟩)) ∧
    ((HPB.validate_area_data [HPB.sampleRow] HPB.sampleNewArea).1 = true ∧
     (HPB.add_area ⟨[HPB.sampleRow], [HPB.sampleRow]⟩ HPB.sampleNewArea true [] =
        ((true, "エリア '".toList ++ HPB.sampleNewArea.prefecture.getD [] ++ " ".toList ++
            HPB.sampleNewArea.area.getD [] ++ "' が正常に追加されました".toList),
         ⟨[HPB.sampleRow] ++ [HPB.rowOfData HPB.sampleNewArea],
          [HPB.sampleRow] ++ [HPB.rowOfData HPB.sampleNewArea]⟩) ∧
      (HPB.add_area ⟨[HPB.sampleRow], [HPB.sampleRow]⟩ HPB.sampleNewArea true []).2.df.length =
        [HPB.sampleRow].length + 1)) := by
  refine ⟨⟨by decide, ?_⟩, ⟨by decide, ?_⟩⟩
  · exact (C6_add_area_behavior ⟨[HPB.sampleRow], [HPB.sampleRow]⟩ HPB.sampleDupArea
      true []).1 (by decide)
  · exact (C6_add_area_behavior ⟨[HPB.sampleRow], [HPB.sampleRow]⟩ HPB.sampleNewArea
      true []).2 (by decide) rfl

/-- C10: when a submission passes validation but the CSV save fails,
`add_area` reports failure, yet the in-memory table keeps the appended
row: its length has grown by one, a duplicate check on the same
(prefecture, area) now reports the pair as existing, and the CSV rows are
unchanged — the add is not atomic with respect to persistence failure. -/
theorem C10_add_area_not_atomic (st : HPB.AreaManagerState) (d : HPB.AreaData)
    (saveErr : HPB.PyStr) (hv : (HPB.validate_area_data st.df d).1 = true) :
    (HPB.add_area st d false saveErr).1 = (false, HPB.addFailureMsg saveErr) ∧
    (HPB.add_area st d false saveErr).2.df = st.df ++ [HPB.rowOfData d] ∧
    (HPB.add_area st d false saveErr).2.df.length = st.df.length + 1 ∧
    HPB.is_duplicate (HPB.add_area st d false saveErr).2.df
      (d.prefecture.getD []) (d.area.getD []) = true ∧
    (HPB.add_area st d false saveErr).2.csv = st.csv := by
  refine ⟨by simp [HPB.add_area, hv], by simp [HPB.add_area, hv],
    by simp [HPB.add_area, hv], ?_, by simp [HPB.add_area, hv]⟩
  simp [HPB.add_area, hv, HPB.is_duplicate, List.filter_append, HPB.rowOfData]

/-- Witness for C10 with the concrete valid submission and a failing save. -/
theorem C10_add_area_not_atomic_witness :
    (HPB.validate_area_data [HPB.sampleRow] HPB.sampleNewArea).1 = true ∧
    ((HPB.add_area ⟨[HPB.sampleRow], [HPB.sampleRow]⟩ HPB.sampleNewArea false
        "disk full".toList).1 =
      (false, HPB.addFailureMsg "disk full".toList) ∧
     (HPB.add_area ⟨[HPB.sampleRow], [HPB.sampleRow]⟩ HPB.sampleNewArea false
        "disk full".toList).2.df = [HPB.sampleRow] ++ [HPB.rowOfData HPB.sampleNewArea] ∧
     (HPB.add_area ⟨[HPB.sampleRow], [HPB.sampleRow]⟩ HPB.sampleNewArea false
        "disk full".toList).2.df.length = [HPB.sampleRow].length + 1 ∧
     HPB.is_duplicate (HPB.add_area ⟨[HPB.sampleRow], [HPB.sampleRow]⟩ HPB.sampleNewArea false
        "disk full".toList).2.df
       (HPB.sampleNewArea.prefecture.getD []) (HPB.sampleNewArea.area.getD []) = true ∧
     (HPB.add_area ⟨[HPB.sampleRow], [HPB.sampleRow]⟩ HPB.sampleNewArea false
        "disk full".toList).2.csv = [HPB.sampleRow]) :=
  ⟨by decide,
   C10_add_area_not_atomic ⟨[HPB.sampleRow], [HPB.sampleRow]⟩ HPB.sampleNewArea
     "disk full".toList (by decide)⟩

/-- C9: both export operations build the same workbook rows: the first row
is exactly the seven headers サロン名, 電話番号, 住所, スタッフ数,
関連リンク, 関連リンク数, サロンURL in that order, followed by one data
row per record in input order, every missing field rendered as the blank
string. -/
theorem C9_export_rows (l : List HPB.SalonDict) :
    HPB.export_salon_data_rows l =
      (HPB.excelHeader.map (fun h => HPB.CellVal.s h.toList)) ::
        l.map (fun data => HPB.excelHeader.map (fun h => HPB.dictGet data h (.s []))) ∧
    HPB.export_salon_data_rows l = HPB.get_excel_bytes_rows l := by
  constructor
  · simp only [HPB.export_salon_data_rows]
    rw [HPB.foldl_sheetAppend]
    simp [HPB.sheetAppend]
  · rfl

/-- C7: for a counter state with `total > 0` and a set start time, the
snapshot exists and satisfies `progress = min(100, processed / max(1,
total) * 100)`, `avg_time = elapsed / max(1, processed)`, `speed =
processed / elapsed` (which is 0 when `elapsed` is 0), `remaining =
max(0, total - processed)`; the ETA uses the seconds form when the
computed remaining seconds `r < 60`, the minutes form when `60 ≤ r <
3600`, and the hours+minutes form otherwise; and when `total = 0` the
snapshot is the empty dict. -/
theorem C7_progress_snapshot (st : HPB.ScraperCounters) (now t0 : ℚ)
    (htotal : 0 < st.total_urls) (hstart : st.start_time = some t0)
    (helapsed : 0 ≤ now - t0) :
    (∃ info, HPB.get_progress_info st now = some info ∧
      info.progress =
        min 100 ((st.processed_urls : ℚ) / ((max 1 st.total_urls : ℕ) : ℚ) * 100) ∧
      info.avg_time = (now - t0) / ((max 1 st.processed_urls : ℕ) : ℚ) ∧
      info.elapsed = now - t0 ∧
      info.speed = (st.processed_urls : ℚ) / (now - t0) ∧
      info.remaining = max 0 ((st.total_urls : ℤ) - (st.processed_urls : ℤ)) ∧
      (0 < st.processed_urls → t0 ≠ 0 →
        ((HPB.etaSeconds st now t0 < 60 →
          info.eta = .seconds (HPB.pyTrunc (max 0 (HPB.etaSeconds st now t0)))) ∧
         (60 ≤ HPB.etaSeconds st now t0 → HPB.etaSeconds st now t0 < 3600 →
          info.eta = .minutes (HPB.pyTrunc (HPB.etaSeconds st now t0 / 60))) ∧
         (3600 ≤ HPB.etaSeconds st now t0 →
          info.eta = .hoursMinutes (HPB.pyTrunc (HPB.etaSeconds st now t0 / 3600))
            (HPB.pyTrunc (HPB.pyMod (HPB.etaSeconds st now t0) 3600 / 60)))))) ∧
    (∀ st0 : HPB.ScraperCounters, st0.total_urls = 0 →
      HPB.get_progress_info st0 now = none) := by
  have hne : st.total_urls ≠ 0 := Nat.pos_iff_ne_zero.mp htotal
  constructor
  · refine ⟨_, by rw [HPB.get_progress_info, if_neg hne], rfl, by simp [hstart], by simp [hstart],
      ?_, rfl, ?_⟩
    · rcases lt_or_eq_of_le helapsed with hpos | hzero
      · simp [hstart, hpos]
      · simp [hstart, ← hzero]
    · intro hp ht0
      have hcond : ¬ (t0 = 0 ∨ st.processed_urls = 0) := by
        push_neg
        exact ⟨ht0, Nat.pos_iff_ne_zero.mp hp⟩
      refine ⟨fun h1 => ?_, fun h2a h2b => ?_, fun h3 => ?_⟩
      · show HPB.calculate_eta st now = _
        rw [HPB.calculate_eta, hstart]
        simp only [if_neg hcond, if_pos h1]
      · show HPB.calculate_eta st now = _
        rw [HPB.calculate_eta, hstart]
        simp only [if_neg hcond, if_neg (not_lt.mpr h2a), if_pos h2b]
      · show HPB.calculate_eta st now = _
        rw [HPB.calculate_eta, hstart]
        have h3a : ¬ (HPB.etaSeconds st now t0 < 60) := by
          refine not_lt.mpr (le_trans ?_ h3)
          norm_num
        simp only [if_neg hcond, if_neg h3a, if_neg (not_lt.mpr h3)]
  · intro st0 h0
    rw [HPB.get_progress_info, if_pos h0]

/-- Witness for C7 at the spec's worked example (`total=10, processed=4,
elapsed=20s`); the computed ETA of 30 seconds falls in the seconds form. -/
theorem C7_progress_snapshot_witness :
    (0 < HPB.sampleCounters.total_urls ∧ HPB.sampleCounters.start_time = some 5 ∧
     (0 : ℚ) ≤ 25 - 5) ∧
    ((∃ info, HPB.get_progress_info HPB.sampleCounters 25 = some info ∧
      info.progress = min 100 ((HPB.sampleCounters.processed_urls : ℚ) /
        ((max 1 HPB.sampleCounters.total_urls : ℕ) : ℚ) * 100) ∧
      info.avg_time = (25 - 5) / ((max 1 HPB.sampleCounters.processed_urls : ℕ) : ℚ) ∧
      info.elapsed = 25 - 5 ∧
      info.speed = (HPB.sampleCounters.processed_urls : ℚ) / (25 - 5) ∧
      info.remaining = max 0 ((HPB.sampleCounters.total_urls : ℤ) -
        (HPB.sampleCounters.processed_urls : ℤ)) ∧
      (0 < HPB.sampleCounters.processed_urls → (5 : ℚ) ≠ 0 →
        ((HPB.etaSeconds HPB.sampleCounters 25 5 < 60 →
          info.eta = .seconds (HPB.pyTrunc (max 0 (HPB.etaSeconds HPB.sampleCounters 25 5)))) ∧
         (60 ≤ HPB.etaSeconds HPB.sampleCounters 25 5 →
          HPB.etaSeconds HPB.sampleCounters 25 5 < 3600 →
          info.eta = .minutes (HPB.pyTrunc (HPB.etaSeconds HPB.sampleCounters 25 5 / 60))) ∧
         (3600 ≤ HPB.etaSeconds HPB.sampleCounters 25 5 →
          info.eta = .hoursMinutes (HPB.pyTrunc (HPB.etaSeconds HPB.sampleCounters 25 5 / 3600))
            (HPB.pyTrunc (HPB.pyMod (HPB.etaSeconds HPB.sampleCounters 25 5) 3600 / 60)))))) ∧
     (∀ st0 : HPB.ScraperCounters, st0.total_urls = 0 →
       HPB.get_progress_info st0 25 = none)) := by
  have h1 : 0 < HPB.sampleCounters.total_urls := by decide
  have h2 : HPB.sampleCounters.start_time = some 5 := rfl
  have h3 : (0 : ℚ) ≤ 25 - 5 := by norm_num
  exact ⟨⟨h1, h2, h3⟩, C7_progress_snapshot HPB.sampleCounters 25 5 h1 h2 h3⟩
